import Mathlib

/-!
Shallow embedding of the standup-automation plugin
(`warmachine/addons/standup.py`) of the dbolla repository.

Time model: instants are whole seconds since an epoch that falls on a
Monday at 00:00; days are uniform 86400-second intervals (the Python code
works with naive local `datetime`s; DST shifts are outside the model).
`isoweekday` therefore returns 1 (Monday) .. 7 (Sunday) exactly as
Python's `datetime.isoweekday` does on this uniform calendar.

The event loop's `call_later` is modelled by appending a `Timer` record
(fresh id, requested delay, a symbolic description of the callback) to
the state; `Handle.cancel()` is modelled by recording the handle id in a
`cancelled` list.  Outbound `connection.say(text, dest)` calls are
collected as `(text, dest)` pairs in the order they are awaited.
Python exceptions propagate as an `error` field / `Except.error`; the
mutations performed before the raise are kept, as in the real code.
-/

namespace Standup

/-- Python `datetime.isoweekday()`: 1 = Monday .. 7 = Sunday.  Instants
are plain `Nat` values of whole seconds; second 0 is Monday 00:00. -/
def isoweekday (t : Nat) : Nat := t / 86400 % 7 + 1

/-- A parsed `HH:MM` wall-clock time of day. -/
structure TimeOfDay where
  hour : Nat
  minute : Nat
deriving DecidableEq, Repr

/-- Python `datetime(x.year, x.month, x.day, hour, minute)`: the instant on
the same calendar day as `t` at the given time of day. -/
def atTime (t : Nat) (tod : TimeOfDay) : Nat :=
  t / 86400 * 86400 + tod.hour * 3600 + tod.minute * 60

/-- Body of `get_next_standup_secs` (standup.py lines 367-391) after the
`time24h` string has been parsed into hour and minute. -/
def nextStandupAt (tod : TimeOfDay) (now : Nat) : Nat :=
  let next_standup := atTime now tod
  if now > next_standup ∨ isoweekday now > 4 then
    let hours := if isoweekday now = 5 then 72
      else if isoweekday now = 6 then 48
      else 24
    let future := now + hours * 3600
    atTime future tod
  else
    next_standup

/-- Leading-digit parse of a decimal numeral, as Python `int` accepts for a
plain digit string (signs/whitespace variants of Python `int` are outside
the model; they would be rejected by the `datetime` range check anyway for
the hour/minute magnitudes involved). -/
def parseNatAux : List Char → Nat → Option Nat
  | [], n => some n
  | c :: rest, n =>
    if '0' ≤ c ∧ c ≤ '9' then parseNatAux rest (n * 10 + (c.toNat - 48))
    else none

/-- Python `int(s)` for a digit string: `none` on the empty string or any
non-digit character (`ValueError`). -/
def parseNatStr (s : String) : Option Nat :=
  match s.data with
  | [] => none
  | l => parseNatAux l 0

/-- Python `str.split(sep)` on a single-character separator (keeps empty
fields, returns `[""]` on the empty string). -/
def splitCharAux (sep : Char) : List Char → List Char → List String
  | [], acc => [String.mk acc.reverse]
  | c :: rest, acc =>
    if c = sep then String.mk acc.reverse :: splitCharAux sep rest []
    else splitCharAux sep rest (c :: acc)

/-- Split a string on a single-character separator, Python `s.split(sep)`. -/
def splitChar (s : String) (sep : Char) : List String :=
  splitCharAux sep s.data []

/-- Parsing and validation performed by
`standup_hour, standup_minute = (int(s) for s in time24h.split(':'))`
followed by the `datetime(...)` constructor's range check: exactly two
fields, both decimal numbers, hour below 24 and minute below 60; any
failure raises `ValueError` in the source, modelled as `none`. -/
def parseTime24h (time24h : String) : Option TimeOfDay :=
  match (splitChar time24h ':').map parseNatStr with
  | [some h, some m] => if h < 24 ∧ m < 60 then some (TimeOfDay.mk h m) else none
  | _ => none

/-- `get_next_standup_secs` (standup.py lines 354-391): parse the 24-hour
time string, then compute the next standup instant; a malformed or
out-of-range time raises `ValueError`. -/
def get_next_standup_secs (time24h : String) (now : Nat) :
    Except String Nat :=
  match parseTime24h time24h with
  | some tod => Except.ok (nextStandupAt tod now)
  | none => Except.error "ValueError"

/-- Python `timedelta.seconds` of a difference of `d` whole seconds: the
normalized seconds component, `d mod 86400`, always in `[0, 86400)` —
whole days are NOT included (that would be `total_seconds()`). -/
def tdSeconds (d : Int) : Nat := (d.emod 86400).toNat

/-- Symbolic description of a callback handed to `loop.call_later`. -/
inductive TimerKind where
  /-- `standup_schedule_func connection channel` running a standup. -/
  | standupRun (channel : String)
  /-- `clean_channel_from_waiting_replies channel users`, the delayed GC. -/
  | gcChannel (channel : String) (users : List String)
  /-- `pester_schedule_func` re-prompting `user` for `channel`. -/
  | pesterNag (user : String) (channel : String) (pesterSecs : Nat)
      (pesterCount : Nat)
  /-- `clear_old_standup_message_schedule_func user`. -/
  | clearMsg (user : String)
deriving DecidableEq, Repr

/-- One outstanding `call_later` registration. -/
structure Timer where
  id : Nat
  delay : Nat
  kind : TimerKind
deriving DecidableEq, Repr

/-- One value of `self.standup_schedules[channel]` (standup.py lines
28-33 and 237-242). -/
structure ScheduleEntry where
  future : Nat
  datetime : Nat
  time24h : String
  ignoring : List String
deriving DecidableEq, Repr

/-- One value of `self.users_awaiting_reply[user]`.  Optional dict keys are
modelled as `Option`; `pester_task` distinguishes key-absent (`none`) from
key-present-but-`None` (`some none`) from a live handle (`some (some id)`),
because the source distinguishes them (`'pester_task' in data` versus the
truthiness test). -/
structure WaitingReply where
  for_channels : List String
  pester_task : Option (Option Nat)
  standup_msg : Option String
  clear_standup_msg_f : Option Nat
deriving DecidableEq, Repr

/-- Persisted per-channel projection `{time24h, ignoring}` written by
`save_schedule`. -/
structure PersistChan where
  time24h : String
  ignoring : List String
deriving DecidableEq, Repr

/-- Contents of the settings JSON file: connection id to channel map. -/
abbrev FileData := List (String × List (String × PersistChan))

/-- Association-list lookup; Python `d[k]` / `k in d`. -/
def lookupA {α : Type} (m : List (String × α)) (k : String) : Option α :=
  match m with
  | [] => none
  | (k₁, v) :: rest => if k₁ = k then some v else lookupA rest k

/-- Association-list update-or-append; Python `d[k] = v`. -/
def setA {α : Type} (m : List (String × α)) (k : String) (v : α) :
    List (String × α) :=
  match m with
  | [] => [(k, v)]
  | (k₁, v₁) :: rest =>
    if k₁ = k then (k₁, v) :: rest else (k₁, v₁) :: setA rest k v

/-- Association-list deletion; Python `del d[k]`. -/
def eraseA {α : Type} (m : List (String × α)) (k : String) :
    List (String × α) :=
  match m with
  | [] => []
  | (k₁, v₁) :: rest =>
    if k₁ = k then rest else (k₁, v₁) :: eraseA rest k

/-- The mutable state of one `StandUpPlugin` instance, together with the
event-loop registrations and the settings file it owns. -/
structure PluginState where
  standup_schedules : List (String × ScheduleEntry)
  users_awaiting_reply : List (String × WaitingReply)
  timers : List Timer
  cancelled : List Nat
  nextTimerId : Nat
  file : FileData
deriving DecidableEq, Repr

/-- `loop.call_later(delay, cb)`: register a fresh timer, return its
handle. -/
def callLater (delay : Nat) (kind : TimerKind) (s : PluginState) :
    Nat × PluginState :=
  (s.nextTimerId,
    { s with
      timers := s.timers ++ [Timer.mk s.nextTimerId delay kind]
      nextTimerId := s.nextTimerId + 1 })

/-- `handle.cancel()`. -/
def cancelTimer (h : Nat) (s : PluginState) : PluginState :=
  { s with cancelled := h :: s.cancelled }

/-- Result of running one handler: the state after it, the
`connection.say` calls it awaited in order, and the exception it raised,
if any (mutations made before the raise are kept, as in Python). -/
structure StepResult where
  state : PluginState
  sent : List (String × String)
  error : Option String
deriving DecidableEq, Repr

/-- `save_schedule` (standup.py lines 418-433): project every schedule to
`{time24h, ignoring}`, wrap it under this connection's id alone
(`data = {connection.id: data}`), and write that object over the whole
file. -/
def save_schedule (connId : String) (s : PluginState) : PluginState :=
  { s with
    file := [(connId, s.standup_schedules.map
      (fun p => (p.1, PersistChan.mk p.2.time24h p.2.ignoring)))] }

/-- `schedule_standup` (standup.py lines 204-245): compute the next
occurrence, derive the delay with `timedelta.seconds` (`tdSeconds`),
register the callback, then install the entry (cancelling and replacing
the previous future when the channel already has one, keeping its ignore
list).  A parse failure in `get_next_standup_secs` raises before any
mutation. -/
def schedule_standup (now : Nat) (channel : String) (time24h : String)
    (s : PluginState) : Except String PluginState :=
  match get_next_standup_secs time24h now with
  | Except.error e => Except.error e
  | Except.ok next_standup =>
    let next_standup_secs := tdSeconds ((next_standup : Int) - (now : Int))
    let fs := callLater next_standup_secs (TimerKind.standupRun channel) s
    -- `call_later` does not touch the schedules dict, so the source's
    -- `if channel in self.standup_schedules` reads the pre-call state.
    match lookupA s.standup_schedules channel with
    | some e =>
      let s₂ := cancelTimer e.future fs.2
      Except.ok { s₂ with
        standup_schedules := setA s₂.standup_schedules channel
          (ScheduleEntry.mk fs.1 next_standup time24h e.ignoring) }
    | none =>
      Except.ok { fs.2 with
        standup_schedules := setA fs.2.standup_schedules channel
          (ScheduleEntry.mk fs.1 next_standup time24h []) }

/-- Character-list core of Python `str.startswith`. -/
def strHasLead : List Char → List Char → Bool
  | [], _ => true
  | _ :: _, [] => false
  | a :: ps, b :: ss => a = b && strHasLead ps ss

/-- Python `s.startswith(p)`. -/
def strStartsWith (s p : String) : Bool := strHasLead p.data s.data

/-- Python `sep.join(parts)`. -/
def joinWith (sep : String) : List String → String
  | [] => ""
  | [x] => x
  | x :: rest => x ++ sep ++ joinWith sep rest

/-- The announcement `'*@{}*: {}'.format(user_nick, message)` built for a
fulfilled answer (standup.py lines 81-84). -/
def announceText (user msg : String) : String := "*@" ++ user ++ "*: " ++ msg

/-- The private prompt text of `standup_priv_msg` (standup.py lines
340-343). -/
def standupPrompt (for_channels : List String) : String :=
  "What did you do yesterday? What will you do today? do you have any " ++
  "blockers? (standup for:" ++ joinWith ", " for_channels ++ ")"

/-- Record update of `standup_priv_msg` (standup.py lines 329-337): create
the record with `for_channels = [channel]` when the user is untracked,
otherwise append `channel` only when it is not already present. -/
def addInterest (user channel : String) (m : List (String × WaitingReply)) :
    List (String × WaitingReply) :=
  match lookupA m user with
  | some w =>
    if channel ∈ w.for_channels then m
    else setA m user { w with for_channels := w.for_channels ++ [channel] }
  | none => setA m user (WaitingReply.mk [channel] none none none)

/-- `self.users_awaiting_reply[user]['pester_task'] = f` (standup.py line
352). -/
def setPester (user : String) (f : Nat) (m : List (String × WaitingReply)) :
    List (String × WaitingReply) :=
  match lookupA m user with
  | some w => setA m user { w with pester_task := some (some f) }
  | none => m

/-- `standup_priv_msg` (standup.py lines 312-352): merge the channel into
the user's tracker record, send the prompt, and when pestering is enabled
and the retry bound not yet exceeded, register a pester callback and store
its handle. -/
def standup_priv_msg (user channel : String) (pester pester_count : Nat)
    (s : PluginState) : PluginState × List (String × String) :=
  let s₁ := { s with
    users_awaiting_reply := addInterest user channel s.users_awaiting_reply }
  let fc := match lookupA s₁.users_awaiting_reply user with
    | some w => w.for_channels
    | none => []
  let sent := [(standupPrompt fc, user)]
  if pester > 0 && pester_count ≤ 5 then
    let fs := callLater pester
      (TimerKind.pesterNag user channel pester (pester_count + 1)) s₁
    ({ fs.2 with
        users_awaiting_reply := setPester user fs.1 fs.2.users_awaiting_reply },
      sent)
  else
    (s₁, sent)

/-- A normalized inbound message as delivered to `recv_msg`: the direct
message case is `channel = ""` (falsy in the source's `not
message['channel']` test). -/
structure Message where
  message : String
  channel : String
  sender : String
deriving DecidableEq, Repr

/-- The answer branch of `recv_msg` (standup.py lines 64-102), entered for
a non-command direct message from a tracked sender: cancel any pending
pester (Python `data['pester_task'].cancel()` raises `AttributeError` when
the key holds `None`), cache the answer, schedule the 16-hour cache
expiry, then pop-and-broadcast every interested channel (so the channels
are drained in reverse order and the record's list ends empty; the
`del self.users_awaiting_reply[user_nick]` of the source is commented out,
so the record itself stays). -/
def fulfillAnswer (msg : Message) (s : PluginState) : StepResult :=
  match lookupA s.users_awaiting_reply msg.sender with
  | none => StepResult.mk s [] (some "KeyError")
  | some w₀ =>
    match w₀.pester_task with
    | some none => StepResult.mk s [] (some "AttributeError")
    | pt =>
      let s₁ := match pt with
        | some (some h) => cancelTimer h s
        | _ => s
      let w₁ := match pt with
        | some (some _) => { w₀ with pester_task := some none }
        | _ => w₀
      let announce := announceText msg.sender msg.message
      let w₂ := { w₁ with standup_msg := some msg.message }
      let fs := callLater (16 * (60 * 60)) (TimerKind.clearMsg msg.sender) s₁
      let w₃ := { w₂ with clear_standup_msg_f := some fs.1 }
      let sent := w₃.for_channels.reverse.map (fun c => (announce, c))
      let w₄ := { w₃ with for_channels := [] }
      StepResult.mk
        { fs.2 with
          users_awaiting_reply := setA fs.2.users_awaiting_reply msg.sender w₄ }
        sent none

/-- The `!standup-add` branch of `recv_msg` (standup.py lines 117-127):
cancel the existing schedule's future FIRST (before the time argument is
even inspected), then run `schedule_standup` on `parts[0]` (`IndexError`
when the argument is missing) and persist on success.  Exceptions keep the
cancellation already performed. -/
def handleAdd (now : Nat) (connId channel : String) (parts : List String)
    (s : PluginState) : StepResult :=
  let s₁ := match lookupA s.standup_schedules channel with
    | some e => cancelTimer e.future s
    | none => s
  match parts with
  | [] => StepResult.mk s₁ [] (some "IndexError")
  | t :: _ =>
    match schedule_standup now channel t s₁ with
    | Except.error e => StepResult.mk s₁ [] (some e)
    | Except.ok s₂ => StepResult.mk (save_schedule connId s₂) [] none

/-- The `!standup-remove` branch of `recv_msg` (standup.py lines
134-139). -/
def handleRemove (connId channel : String) (s : PluginState) : StepResult :=
  match lookupA s.standup_schedules channel with
  | some e =>
    let s₁ := cancelTimer e.future s
    let s₂ := { s₁ with
      standup_schedules := eraseA s₁.standup_schedules channel }
    StepResult.mk (save_schedule connId s₂) [] none
  | none => StepResult.mk s [] none

/-- The `!standup-ignore` branch of `recv_msg` (standup.py lines 149-168),
only reached when the channel has a schedule: merge the (joined-then-split)
user arguments into the ignore list, persist when arguments were given, and
report the resulting list. -/
def handleIgnore (connId channel : String) (parts : List String)
    (e : ScheduleEntry) (s : PluginState) : StepResult :=
  let upd :=
    if parts.isEmpty then (s, e)
    else
      let users_to_ignore := splitChar (joinWith "" parts) ' '
      let merged := users_to_ignore.foldl
        (fun acc u => if u ∈ acc then acc else acc ++ [u]) e.ignoring
      let e₂ := { e with ignoring := merged }
      (save_schedule connId
        { s with standup_schedules := setA s.standup_schedules channel e₂ },
        e₂)
  let ignoring := joinWith ", " upd.2.ignoring
  let ignoring := if ignoring = "" then "no one" else ignoring
  StepResult.mk upd.1 [("Currently ignoring " ++ ignoring, channel)] none

/-- The command-dispatch part of `recv_msg` (standup.py lines 104-202):
split the text on single spaces, take the first token as the command and
the rest as arguments, and run the matching `elif` branch.  The two
direct-message report commands send fixed headers plus a `pformat` dump
whose rendering is abstracted to a placeholder string (no claim inspects
it); neither mutates any state. -/
def handleCommand (now : Nat) (connId : String) (msg : Message)
    (s : PluginState) : StepResult :=
  let tokens := splitChar msg.message ' '
  let cmd := tokens.headD ""
  let parts := tokens.tail
  let channel := msg.channel
  let user_nick := msg.sender
  if cmd = "!standup-add" && channel ≠ "" then
    handleAdd now connId channel parts s
  else if cmd = "!standup-remove" && channel ≠ "" then
    handleRemove connId channel s
  else if cmd = "!standup-ignore" && channel ≠ "" &&
      (lookupA s.standup_schedules channel).isSome then
    match lookupA s.standup_schedules channel with
    | some e => handleIgnore connId channel parts e s
    | none => StepResult.mk s [] none
  else if cmd = "!standup-unignore" && channel ≠ "" &&
      (lookupA s.standup_schedules channel).isSome then
    StepResult.mk s [] none
  else if channel = "" && cmd = "!standup-schedules" then
    StepResult.mk s
      [("Standup Schedules", user_nick), ("-----------------", user_nick),
        ("Current Loop Time: ...", user_nick), ("Current Time: ...", user_nick),
        ("pformat standup_schedules", user_nick)] none
  else if channel = "" && cmd = "!standup-waiting_replies" then
    StepResult.mk s
      [("Waiting for Replies From", user_nick),
        ("------------------------", user_nick),
        ("pformat users_awaiting_reply", user_nick)] none
  else
    StepResult.mk s [] none

/-- `recv_msg` (standup.py lines 55-202): a message that is not a
`!standup` command, arrives with no channel (a direct message) and comes
from a sender with a tracker record is treated as that sender's standup
answer; everything else goes to command dispatch. -/
def recv_msg (now : Nat) (connId : String) (msg : Message)
    (s : PluginState) : StepResult :=
  if !strStartsWith msg.message "!standup" && msg.channel = "" &&
      (lookupA s.users_awaiting_reply msg.sender).isSome then
    fulfillAnswer msg s
  else
    handleCommand now connId msg s

/-- Per-user loop body of `start_standup` (standup.py lines 289-299): skip
the bot itself and ignored users; a user with a cached `standup_msg`
gets that answer announced to the channel instead of a prompt; everyone
else is prompted via `standup_priv_msg` with the default pester interval
600 and count 0. -/
def startStandupUser (nick channel : String) (ignoring : List String)
    (u : String) (acc : StepResult) : StepResult :=
  if u = nick || u ∈ ignoring then acc
  else
    match lookupA acc.state.users_awaiting_reply u with
    | some w =>
      match w.standup_msg with
      | some m =>
        { acc with sent := acc.sent ++ [(u ++ ": " ++ m, channel)] }
      | none =>
        let ps := standup_priv_msg u channel 600 0 acc.state
        StepResult.mk ps.1 (acc.sent ++ ps.2) none
    | none =>
      let ps := standup_priv_msg u channel 600 0 acc.state
      StepResult.mk ps.1 (acc.sent ++ ps.2) none

/-- `start_standup` (standup.py lines 277-309): with no members the run is
skipped entirely; otherwise announce, walk the members, and finally
register the 8-hour `clean_channel_from_waiting_replies` GC.  The
channel's schedule entry is read for its ignore list (a `KeyError` if the
channel has no schedule) but is never written: no next occurrence is
computed or installed here. -/
def start_standup (nick : String) (users : List String) (channel : String)
    (s : PluginState) : StepResult :=
  if users.isEmpty then StepResult.mk s [] none
  else
    match lookupA s.standup_schedules channel with
    | none =>
      StepResult.mk s [("@channel Time for standup", channel)]
        (some "KeyError")
    | some e =>
      let init := StepResult.mk s [("@channel Time for standup", channel)] none
      let afterUsers :=
        users.foldl (fun acc u => startStandupUser nick channel e.ignoring u acc)
          init
      let fs := callLater (8 * (60 * 60)) (TimerKind.gcChannel channel users)
        afterUsers.state
      StepResult.mk fs.2 afterUsers.sent none

/-- Per-user body of `clean_channel_from_waiting_replies` (standup.py lines
404-416): for a tracked user, `list.remove(channel)` (a `ValueError` when
the channel is not in the list); when the list becomes empty, read
`['pester_task']` (a `KeyError` when the key is absent) and, when it holds
a live handle, cancel it and delete the key — the tracker record itself is
never deleted. -/
def cleanOne (channel : String) (u : String) (s : PluginState) :
    Except String PluginState :=
  match lookupA s.users_awaiting_reply u with
  | none => Except.ok s
  | some w =>
    if channel ∈ w.for_channels then
      let fc := w.for_channels.erase channel
      let w₁ := { w with for_channels := fc }
      if fc.isEmpty then
        match w₁.pester_task with
        | none => Except.error "KeyError"
        | some none =>
          Except.ok { s with
            users_awaiting_reply := setA s.users_awaiting_reply u w₁ }
        | some (some h) =>
          let s₁ := cancelTimer h s
          Except.ok { s₁ with
            users_awaiting_reply := setA s₁.users_awaiting_reply u
              { w₁ with pester_task := none } }
      else
        Except.ok { s with
          users_awaiting_reply := setA s.users_awaiting_reply u w₁ }
    else
      Except.error "ValueError"

/-- `clean_channel_from_waiting_replies` (standup.py lines 393-416): the
delayed GC walks `users` in order, stopping at the first exception. -/
def clean_channel_from_waiting_replies (channel : String)
    (users : List String) (s : PluginState) : Except String PluginState :=
  users.foldlM (fun st u => cleanOne channel u st) s

/-! ## Helper lemmas about the association-list operations and the
state-preserving shape of the handlers. -/

theorem lookupA_setA_self {α : Type} (m : List (String × α)) (k : String)
    (v : α) : lookupA (setA m k v) k = some v := by
  induction m with
  | nil => simp [setA, lookupA]
  | cons p rest ih =>
    by_cases h : p.1 = k
    · simp [setA, lookupA, h]
    · simp [setA, lookupA, h, ih]

theorem lookupA_setA_ne {α : Type} (m : List (String × α)) (k k₂ : String)
    (v : α) (h : k₂ ≠ k) : lookupA (setA m k v) k₂ = lookupA m k₂ := by
  have hne : k ≠ k₂ := fun hk => h hk.symm
  induction m with
  | nil =>
    simp only [setA, lookupA]
    rw [if_neg hne]
  | cons p rest ih =>
    obtain ⟨k₁, v₁⟩ := p
    by_cases hp : k₁ = k
    · subst hp
      simp only [setA, if_pos rfl, lookupA]
      rw [if_neg hne, if_neg hne]
    · simp only [setA, if_neg hp, lookupA]
      by_cases hk₂ : k₁ = k₂
      · rw [if_pos hk₂, if_pos hk₂]
      · rw [if_neg hk₂, if_neg hk₂, ih]

theorem users_cancelTimer (h : Nat) (s : PluginState) :
    (cancelTimer h s).users_awaiting_reply = s.users_awaiting_reply := rfl

theorem users_callLater (d : Nat) (k : TimerKind) (s : PluginState) :
    (callLater d k s).2.users_awaiting_reply = s.users_awaiting_reply := rfl

theorem users_save_schedule (c : String) (s : PluginState) :
    (save_schedule c s).users_awaiting_reply = s.users_awaiting_reply := rfl

theorem users_schedule_standup (now : Nat) (ch t : String)
    (s s₂ : PluginState) (h : schedule_standup now ch t s = Except.ok s₂) :
    s₂.users_awaiting_reply = s.users_awaiting_reply := by
  unfold schedule_standup at h
  split at h
  · exact absurd h (by simp)
  · dsimp only at h
    split at h <;> (injection h with h; subst h; rfl)

theorem users_handleAdd (now : Nat) (connId ch : String)
    (parts : List String) (s : PluginState) :
    (handleAdd now connId ch parts s).state.users_awaiting_reply =
      s.users_awaiting_reply := by
  have hu : (match lookupA s.standup_schedules ch with
      | some e => cancelTimer e.future s
      | none => s).users_awaiting_reply = s.users_awaiting_reply := by
    cases lookupA s.standup_schedules ch <;> rfl
  unfold handleAdd
  dsimp only
  cases parts with
  | nil => exact hu
  | cons t rest =>
    dsimp only
    split
    · exact hu
    · rename_i s₂ hss
      exact (users_schedule_standup now ch t _ s₂ hss).trans hu

theorem users_handleRemove (connId ch : String) (s : PluginState) :
    (handleRemove connId ch s).state.users_awaiting_reply =
      s.users_awaiting_reply := by
  unfold handleRemove
  cases lookupA s.standup_schedules ch <;> rfl

theorem users_handleIgnore (connId ch : String) (parts : List String)
    (e : ScheduleEntry) (s : PluginState) :
    (handleIgnore connId ch parts e s).state.users_awaiting_reply =
      s.users_awaiting_reply := by
  unfold handleIgnore
  dsimp only
  cases parts.isEmpty <;> rfl

theorem users_handleCommand (now : Nat) (connId : String) (msg : Message)
    (s : PluginState) :
    (handleCommand now connId msg s).state.users_awaiting_reply =
      s.users_awaiting_reply := by
  unfold handleCommand
  dsimp only
  split
  · exact users_handleAdd now connId msg.channel
      (splitChar msg.message ' ').tail s
  · split
    · exact users_handleRemove connId msg.channel s
    · split
      · split
        · rename_i e _
          exact users_handleIgnore connId msg.channel
            (splitChar msg.message ' ').tail e s
        · rfl
      · split
        · rfl
        · split
          · rfl
          · split <;> rfl

theorem recv_msg_answer_path (now : Nat) (connId : String) (msg : Message)
    (s : PluginState)
    (h₁ : strStartsWith msg.message "!standup" = false)
    (h₂ : msg.channel = "")
    (h₃ : (lookupA s.users_awaiting_reply msg.sender).isSome = true) :
    recv_msg now connId msg s = fulfillAnswer msg s := by
  unfold recv_msg
  rw [if_pos]
  rw [h₁, h₂, h₃]
  rfl

theorem recv_msg_command_path (now : Nat) (connId : String) (msg : Message)
    (s : PluginState)
    (h : msg.channel ≠ "" ∨ strStartsWith msg.message "!standup" = true ∨
      lookupA s.users_awaiting_reply msg.sender = none) :
    recv_msg now connId msg s = handleCommand now connId msg s := by
  unfold recv_msg
  rw [if_neg]
  rcases h with h | h | h
  · simp [h]
  · simp [h]
  · simp [h]

theorem fulfillAnswer_spec (msg : Message) (s : PluginState) (w : WaitingReply)
    (hw : lookupA s.users_awaiting_reply msg.sender = some w)
    (hp : w.pester_task ≠ some none) :
    (fulfillAnswer msg s).error = none ∧
    (fulfillAnswer msg s).sent = w.for_channels.reverse.map
      (fun c => (announceText msg.sender msg.message, c)) ∧
    ∃ w₂, lookupA (fulfillAnswer msg s).state.users_awaiting_reply msg.sender
        = some w₂ ∧ w₂.for_channels = [] ∧ w₂.standup_msg = some msg.message := by
  obtain ⟨fc, pt, sm, cf⟩ := w
  unfold fulfillAnswer
  rw [hw]
  dsimp only
  cases pt with
  | none =>
    dsimp only
    refine ⟨rfl, rfl, _, lookupA_setA_self _ _ _, rfl, rfl⟩
  | some a =>
    cases a with
    | none => exact absurd rfl hp
    | some hdl =>
      dsimp only
      refine ⟨rfl, rfl, _, lookupA_setA_self _ _ _, rfl, rfl⟩

theorem filter_pair_length (a c : String) (l : List String) :
    ((l.map (fun x => (a, x))).filter (fun p => p.2 = c)).length = l.count c := by
  induction l with
  | nil => rfl
  | cons x xs ih =>
    by_cases hx : x = c
    · simp [List.count_cons, hx, ih]
    · simp [List.count_cons, hx, ih]

theorem lookupA_setPester_self (u : String) (f : Nat)
    (m : List (String × WaitingReply)) (w : WaitingReply)
    (h : lookupA m u = some w) :
    lookupA (setPester u f m) u =
      some { w with pester_task := some (some f) } := by
  unfold setPester
  rw [h]
  exact lookupA_setA_self _ _ _

theorem addInterest_count (u c : String) (m : List (String × WaitingReply))
    (h : ∀ w, lookupA m u = some w → w.for_channels.count c ≤ 1) :
    ∃ w, lookupA (addInterest u c m) u = some w ∧
      w.for_channels.count c = 1 := by
  unfold addInterest
  cases hm : lookupA m u with
  | none =>
    refine ⟨_, lookupA_setA_self _ _ _, ?_⟩
    simp
  | some w =>
    dsimp only
    by_cases hc : c ∈ w.for_channels
    · rw [if_pos hc]
      refine ⟨w, hm, ?_⟩
      have hle := h w hm
      have hpos := List.count_pos_iff.mpr hc
      omega
    · rw [if_neg hc]
      refine ⟨_, lookupA_setA_self _ _ _, ?_⟩
      dsimp only
      rw [List.count_append]
      simp [List.count_eq_zero.mpr hc]

theorem standup_priv_msg_count (u c : String) (p pc : Nat) (s : PluginState)
    (h : ∀ w, lookupA s.users_awaiting_reply u = some w →
      w.for_channels.count c ≤ 1) :
    ∃ w, lookupA (standup_priv_msg u c p pc s).1.users_awaiting_reply u =
      some w ∧ w.for_channels.count c = 1 := by
  obtain ⟨w₁, hw₁, hcnt⟩ := addInterest_count u c s.users_awaiting_reply h
  unfold standup_priv_msg
  dsimp only
  split
  · exact ⟨_, lookupA_setPester_self u _ _ w₁ hw₁, hcnt⟩
  · exact ⟨w₁, hw₁, hcnt⟩

/-! ## Claim theorems -/

/-- C2, counterexample: at `now = 345600` (a Friday, 00:00) with
`time_of_day = 10:00`, `now` is strictly before the same-day 10:00
instant, yet `get_next_standup_secs` does not return the same-day
instant (the `now.isoweekday() > 4` test already fires on Friday), so the
claim that a Friday `now` before `time_of_day` yields the same-day Friday
instant is false. -/
theorem C2_counterexample :
    isoweekday 345600 = 5 ∧
    345600 < atTime 345600 (TimeOfDay.mk 10 0) ∧
    nextStandupAt (TimeOfDay.mk 10 0) 345600 ≠
      atTime 345600 (TimeOfDay.mk 10 0) := by decide

/-- C2 (amended): on Monday through Thursday strictly before
`time_of_day`, `next_occurrence` returns the same-day instant; on Friday,
regardless of time (the code treats Friday like a weekend day), the result
is the instant 72 hours of days later — the following Monday at
`time_of_day` — and in particular never a Saturday or Sunday. -/
theorem C2_amended_thm (tod : TimeOfDay) (now nowF : Nat)
    (hwd : isoweekday now ≤ 4) (hbefore : now < atTime now tod)
    (hF : isoweekday nowF = 5) (hh : tod.hour < 24) (hm : tod.minute < 60) :
    nextStandupAt tod now = atTime now tod ∧
    nextStandupAt tod nowF = atTime (nowF + 72 * 3600) tod ∧
    isoweekday (nextStandupAt tod nowF) = 1 := by
  have h₁ : nextStandupAt tod now = atTime now tod := by
    unfold nextStandupAt
    dsimp only
    rw [if_neg]
    unfold atTime isoweekday
    unfold atTime at hbefore
    unfold isoweekday at hwd
    omega
  have h₂ : nextStandupAt tod nowF = atTime (nowF + 72 * 3600) tod := by
    unfold nextStandupAt
    dsimp only
    rw [if_pos (Or.inr (by rw [hF]; norm_num)), if_pos hF]
  refine ⟨h₁, h₂, ?_⟩
  rw [h₂]
  unfold isoweekday atTime
  unfold isoweekday at hF
  omega

/-- Witness for C2 (amended): `now = 0` is a Monday midnight before 10:00,
`nowF = 345600` is a Friday. -/
theorem C2_amended_witness :
    nextStandupAt (TimeOfDay.mk 10 0) 0 = atTime 0 (TimeOfDay.mk 10 0) ∧
    nextStandupAt (TimeOfDay.mk 10 0) 345600 =
      atTime (345600 + 72 * 3600) (TimeOfDay.mk 10 0) ∧
    isoweekday (nextStandupAt (TimeOfDay.mk 10 0) 345600) = 1 :=
  C2_amended_thm (TimeOfDay.mk 10 0) 0 345600 (by decide) (by decide)
    (by decide) (by decide) (by decide)

/-- C1: a successful `start_standup` run schedules the 8-hour GC
(`28800 = 8*60*60` below) but does NOT recompute or reinstall the next
occurrence: at fire time `36000` (Monday 10:00) for channel `"C"`
scheduled at `10:00`, after the handler returns the schedules dict is
untouched — `next_fire` is still the instant that just fired, not
strictly in the future — and the only `standupRun` timer is the original
already-fired one (the new timers are the pester and the GC). -/
theorem C1_code_bug :
    (start_standup "bot" ["alice"] "C"
      (PluginState.mk [("C", ScheduleEntry.mk 0 36000 "10:00" [])] []
        [Timer.mk 0 36000 (TimerKind.standupRun "C")] [] 1 [])).error = none ∧
    (start_standup "bot" ["alice"] "C"
      (PluginState.mk [("C", ScheduleEntry.mk 0 36000 "10:00" [])] []
        [Timer.mk 0 36000 (TimerKind.standupRun "C")] [] 1
        [])).state.standup_schedules =
      [("C", ScheduleEntry.mk 0 36000 "10:00" [])] ∧
    (start_standup "bot" ["alice"] "C"
      (PluginState.mk [("C", ScheduleEntry.mk 0 36000 "10:00" [])] []
        [Timer.mk 0 36000 (TimerKind.standupRun "C")] [] 1 [])).state.timers =
      [Timer.mk 0 36000 (TimerKind.standupRun "C"),
        Timer.mk 1 600 (TimerKind.pesterNag "alice" "C" 600 1),
        Timer.mk 2 28800 (TimerKind.gcChannel "C" ["alice"])] ∧
    (start_standup "bot" ["alice"] "C"
      (PluginState.mk [("C", ScheduleEntry.mk 0 36000 "10:00" [])] []
        [Timer.mk 0 36000 (TimerKind.standupRun "C")] [] 1
        [])).state.cancelled = [] := by decide

/-- C3: the delay installed by `schedule_standup` is NOT `next_fire - now`
clamped to zero: the source uses `timedelta.seconds`, which drops whole
days.  At `now = 388800` (Friday 12:00) with time `10:00`, the next
occurrence is `640800` (Monday 10:00), `640800 - 388800 = 252000` seconds
(70 hours) away, yet the callback is registered with delay `79200`
(22 hours), which would fire on Saturday. -/
theorem C3_code_bug :
    isoweekday 388800 = 5 ∧
    get_next_standup_secs "10:00" 388800 = Except.ok 640800 ∧
    tdSeconds ((640800 : Int) - 388800) = 79200 ∧
    schedule_standup 388800 "C" "10:00" (PluginState.mk [] [] [] [] 0 []) =
      Except.ok (PluginState.mk
        [("C", ScheduleEntry.mk 0 640800 "10:00" [])] []
        [Timer.mk 0 79200 (TimerKind.standupRun "C")] [] 1 []) ∧
    (79200 : Nat) ≠ 252000 :=
  ⟨by decide, rfl, by decide, rfl, by decide⟩

/-- C4, counterexample: with the persisted file holding top-level entries
for connections `"A"` and `"B"`, a `save_schedule` for `"A"` rewrites the
file to `{"A": ...}` alone: connection `"B"`'s entry is gone, so the
claimed merge-on-write preservation is false. -/
theorem C4_counterexample :
    lookupA (PluginState.mk [] [] [] [] 0
        [("A", []), ("B", [("#x", PersistChan.mk "09:00" [])])]).file "B" =
      some [("#x", PersistChan.mk "09:00" [])] ∧
    lookupA (save_schedule "A" (PluginState.mk [] [] [] [] 0
        [("A", []), ("B", [("#x", PersistChan.mk "09:00" [])])])).file "B" =
      none := by decide

/-- C4 (amended): `save_schedule` for one connection id writes the whole
file as a single-key object holding only that connection's schedules
(last-writer-wins, no read-merge); after the save the file has no entry
for any other connection id, whatever the file held before. -/
theorem C4_amended_thm (connId other : String) (s : PluginState)
    (h : other ≠ connId) :
    (save_schedule connId s).file =
      [(connId, s.standup_schedules.map
        (fun p => (p.1, PersistChan.mk p.2.time24h p.2.ignoring)))] ∧
    lookupA (save_schedule connId s).file other = none := by
  refine ⟨rfl, ?_⟩
  unfold save_schedule lookupA
  rw [if_neg fun hk => h hk.symm]
  rfl

/-- Shared helper: the delayed GC applied to a single tracked user whose
interest list is exactly the released channel and who has a live pester
handle: the channel is removed, the pester cancelled, the `pester_task`
key deleted — and the record is left in place with an empty list. -/
theorem cleanOne_last_channel (t : PluginState) (u c : String)
    (v : WaitingReply) (hdl : Nat)
    (g₁ : lookupA t.users_awaiting_reply u = some v)
    (g₂ : v.for_channels = [c]) (g₃ : v.pester_task = some (some hdl)) :
    clean_channel_from_waiting_replies c [u] t = Except.ok
      { t with
        cancelled := hdl :: t.cancelled
        users_awaiting_reply := setA t.users_awaiting_reply u
          (WaitingReply.mk [] none v.standup_msg v.clear_standup_msg_f) } := by
  obtain ⟨fc, pt, sm, cf⟩ := v
  dsimp only at g₂ g₃
  subst g₂
  subst g₃
  have hc : cleanOne c u t = Except.ok
      { t with
        cancelled := hdl :: t.cancelled
        users_awaiting_reply := setA t.users_awaiting_reply u
          (WaitingReply.mk [] none sm cf) } := by
    unfold cleanOne
    rw [g₁]
    dsimp only
    rw [if_pos (by simp)]
    simp [cancelTimer]
  unfold clean_channel_from_waiting_replies
  simp [List.foldlM, hc]

/-- Witness for C4 (amended) at a concrete file with two connections. -/
theorem C4_amended_witness :
    (save_schedule "A" (PluginState.mk [] [] [] [] 0
        [("A", []), ("B", [("#x", PersistChan.mk "09:00" [])])])).file =
      [("A", [])] ∧
    lookupA (save_schedule "A" (PluginState.mk [] [] [] [] 0
        [("A", []), ("B", [("#x", PersistChan.mk "09:00" [])])])).file "B" =
      none := by
  have h := C4_amended_thm "A" "B" (PluginState.mk [] [] [] [] 0
    [("A", []), ("B", [("#x", PersistChan.mk "09:00" [])])]) (by decide)
  exact ⟨h.1, h.2⟩

/-- C5, counterexample: a tracked user `"u"` with one interested channel
answers by direct message; after `recv_msg` handles the answer, the
tracker record for `"u"` still exists and its `for_channels` list is
empty — the source's `del self.users_awaiting_reply[user_nick]` is
commented out — so the claimed invariant (non-empty while present,
deleted when the last channel is removed) is false. -/
theorem C5_counterexample :
    lookupA (recv_msg 0 "conn" (Message.mk "done" "" "u")
        (PluginState.mk []
          [("u", WaitingReply.mk ["C"] (some (some 7)) none none)]
          [] [] 10 [])).state.users_awaiting_reply "u" =
      some (WaitingReply.mk [] (some none) (some "done") (some 10)) := by decide

/-- C5 (amended): a tracker record CAN outlive its last interested
channel with an empty `interested_channels` list: fulfillment of an
answer drains the list but keeps the record (caching the answer on it),
and the delayed GC that removes a record's last channel also keeps the
record, merely cancelling and dropping the pester handle. -/
theorem C5_amended_thm (now : Nat) (connId : String) (msg : Message)
    (s : PluginState) (w : WaitingReply)
    (h₁ : strStartsWith msg.message "!standup" = false)
    (h₂ : msg.channel = "")
    (h₃ : lookupA s.users_awaiting_reply msg.sender = some w)
    (h₄ : w.pester_task ≠ some none)
    (t : PluginState) (u c : String) (v : WaitingReply) (hdl : Nat)
    (g₁ : lookupA t.users_awaiting_reply u = some v)
    (g₂ : v.for_channels = [c]) (g₃ : v.pester_task = some (some hdl)) :
    (∃ w₂, lookupA (recv_msg now connId msg s).state.users_awaiting_reply
        msg.sender = some w₂ ∧ w₂.for_channels = []) ∧
    (∃ t₂ v₂, clean_channel_from_waiting_replies c [u] t = Except.ok t₂ ∧
      lookupA t₂.users_awaiting_reply u = some v₂ ∧ v₂.for_channels = []) := by
  constructor
  · rw [recv_msg_answer_path now connId msg s h₁ h₂ (by rw [h₃]; rfl)]
    obtain ⟨-, -, w₂, hw₂, hfc, -⟩ := fulfillAnswer_spec msg s w h₃ h₄
    exact ⟨w₂, hw₂, hfc⟩
  · exact ⟨_, WaitingReply.mk [] none v.standup_msg v.clear_standup_msg_f,
      cleanOne_last_channel t u c v hdl g₁ g₂ g₃,
      lookupA_setA_self _ _ _, rfl⟩

/-- Witness for C5 (amended) at concrete fulfillment and GC states. -/
theorem C5_amended_witness :
    (∃ w₂, lookupA (recv_msg 0 "conn" (Message.mk "hi" "" "u")
        (PluginState.mk []
          [("u", WaitingReply.mk ["C"] (some (some 7)) none none)]
          [] [] 10 [])).state.users_awaiting_reply "u" = some w₂ ∧
      w₂.for_channels = []) ∧
    (∃ t₂ v₂, clean_channel_from_waiting_replies "D" ["x"]
        (PluginState.mk []
          [("x", WaitingReply.mk ["D"] (some (some 3)) none none)]
          [] [] 4 []) = Except.ok t₂ ∧
      lookupA t₂.users_awaiting_reply "x" = some v₂ ∧
      v₂.for_channels = []) :=
  C5_amended_thm 0 "conn" (Message.mk "hi" "" "u")
    (PluginState.mk [] [("u", WaitingReply.mk ["C"] (some (some 7)) none none)]
      [] [] 10 [])
    (WaitingReply.mk ["C"] (some (some 7)) none none)
    (by decide) (by decide) (by decide) (by decide)
    (PluginState.mk [] [("x", WaitingReply.mk ["D"] (some (some 3)) none none)]
      [] [] 4 [])
    "x" "D" (WaitingReply.mk ["D"] (some (some 3)) none none) 3
    (by decide) (by decide) (by decide)

/-- C6, counterexample: `clean_channel_from_waiting_replies` removing the
last interested channel of `"u"` cancels the pester (handle 3) and deletes
the `pester_task` key, but the tracker record for `"u"` is NOT deleted:
it survives with an empty `for_channels` list, so the claim's "the record
itself is deleted" is false. -/
theorem C6_counterexample :
    clean_channel_from_waiting_replies "C" ["u"]
        (PluginState.mk []
          [("u", WaitingReply.mk ["C"] (some (some 3)) none none)]
          [] [] 10 []) =
      Except.ok (PluginState.mk []
        [("u", WaitingReply.mk [] none none none)]
        [] [3] 10 []) := rfl

/-- C6 (amended): for a responder whose interest set is exactly the
released channel and who has a live pester handle, `release_channel`
removes the channel and cancels the pending pester (deleting its key),
but retains the tracker record with an empty interested-channels list
instead of deleting it. -/
theorem C6_amended_thm (t : PluginState) (u c : String) (v : WaitingReply)
    (hdl : Nat)
    (g₁ : lookupA t.users_awaiting_reply u = some v)
    (g₂ : v.for_channels = [c]) (g₃ : v.pester_task = some (some hdl)) :
    ∃ t₂, clean_channel_from_waiting_replies c [u] t = Except.ok t₂ ∧
      t₂.cancelled = hdl :: t.cancelled ∧
      lookupA t₂.users_awaiting_reply u =
        some (WaitingReply.mk [] none v.standup_msg v.clear_standup_msg_f) := by
  refine ⟨_, cleanOne_last_channel t u c v hdl g₁ g₂ g₃, rfl, ?_⟩
  exact lookupA_setA_self _ _ _

/-- Witness for C6 (amended) at a concrete GC state. -/
theorem C6_amended_witness :
    ∃ t₂, clean_channel_from_waiting_replies "C" ["w"]
        (PluginState.mk []
          [("w", WaitingReply.mk ["C"] (some (some 9)) none none)]
          [] [] 12 []) = Except.ok t₂ ∧
      t₂.cancelled = 9 :: ([] : List Nat) ∧
      lookupA t₂.users_awaiting_reply "w" =
        some (WaitingReply.mk [] none none none) :=
  C6_amended_thm
    (PluginState.mk [] [("w", WaitingReply.mk ["C"] (some (some 9)) none none)]
      [] [] 12 [])
    "w" "C" (WaitingReply.mk ["C"] (some (some 9)) none none) 9
    (by decide) (by decide) (by decide)

/-- C7, counterexample: `!standup-add abc` (malformed time) arrives in
channel `"C"`, which already has a schedule whose live callback is handle
`5`.  The command is indeed rejected with no new schedule, no save and no
confirmation — but the existing schedule's pending callback has been
cancelled (handle `5` is in `cancelled`), so the claim's "existing
schedule, including its live pending callback, is left intact" is
false. -/
theorem C7_counterexample :
    let r := recv_msg 0 "conn" (Message.mk "!standup-add abc" "C" "bob")
      (PluginState.mk [("C", ScheduleEntry.mk 5 36000 "10:00" [])] []
        [Timer.mk 5 36000 (TimerKind.standupRun "C")] [] 6 [])
    r.error = some "ValueError" ∧
    r.sent = [] ∧
    r.state.standup_schedules = [("C", ScheduleEntry.mk 5 36000 "10:00" [])] ∧
    r.state.cancelled = [5] := by decide

/-- C7 (amended): a `!standup-add` with a missing or malformed time
argument, in any channel, creates or mutates no schedule entry, performs
no save and sends no confirmation, and the exception propagates out of
the handler; when the channel has no schedule nothing else happens, but
when it already has one, its live pending callback has been cancelled
before the failure, leaving the installed entry inert rather than
intact. -/
theorem C7_amended_thm (now : Nat) (connId : String) (msg : Message)
    (s : PluginState) (rest : List String)
    (htok : splitChar msg.message ' ' = "!standup-add" :: rest)
    (hch : msg.channel ≠ "")
    (hbad : rest = [] ∨ ∃ t l, rest = t :: l ∧ parseTime24h t = none) :
    (recv_msg now connId msg s).state.standup_schedules =
      s.standup_schedules ∧
    (recv_msg now connId msg s).state.file = s.file ∧
    (recv_msg now connId msg s).sent = [] ∧
    (recv_msg now connId msg s).error ≠ none ∧
    (recv_msg now connId msg s).state.cancelled =
      (match lookupA s.standup_schedules msg.channel with
        | some e => e.future :: s.cancelled
        | none => s.cancelled) := by
  rw [recv_msg_command_path now connId msg s (Or.inl hch)]
  unfold handleCommand
  rw [htok]
  dsimp only
  rw [if_pos (by simp [hch])]
  unfold handleAdd
  simp only [List.tail_cons]
  generalize lookupA s.standup_schedules msg.channel = M
  cases M with
  | none =>
    dsimp only
    rcases hbad with hnil | ⟨t, l, hcons, hparse⟩
    · subst hnil
      exact ⟨rfl, rfl, rfl, by simp, rfl⟩
    · subst hcons
      dsimp only
      have hss : schedule_standup now msg.channel t s =
          Except.error "ValueError" := by
        unfold schedule_standup get_next_standup_secs
        rw [hparse]
      rw [hss]
      exact ⟨rfl, rfl, rfl, by simp, rfl⟩
  | some e =>
    dsimp only
    rcases hbad with hnil | ⟨t, l, hcons, hparse⟩
    · subst hnil
      exact ⟨rfl, rfl, rfl, by simp, rfl⟩
    · subst hcons
      dsimp only
      have hss : schedule_standup now msg.channel t
          (cancelTimer e.future s) = Except.error "ValueError" := by
        unfold schedule_standup get_next_standup_secs
        rw [hparse]
      rw [hss]
      exact ⟨rfl, rfl, rfl, by simp, rfl⟩

/-- Witness for C7 (amended) at the malformed argument `"abc"`, in a
channel that already has a schedule (callback 8 ends up cancelled). -/
theorem C7_amended_witness :
    let r := recv_msg 0 "conn" (Message.mk "!standup-add abc" "D" "bob")
      (PluginState.mk [("D", ScheduleEntry.mk 8 36000 "10:00" [])] []
        [Timer.mk 8 36000 (TimerKind.standupRun "D")] [] 9 [])
    r.state.standup_schedules = [("D", ScheduleEntry.mk 8 36000 "10:00" [])] ∧
    r.state.file = [] ∧
    r.sent = [] ∧
    r.error ≠ none ∧
    r.state.cancelled = [8] :=
  C7_amended_thm 0 "conn" (Message.mk "!standup-add abc" "D" "bob")
    (PluginState.mk [("D", ScheduleEntry.mk 8 36000 "10:00" [])] []
      [Timer.mk 8 36000 (TimerKind.standupRun "D")] [] 9 [])
    ["abc"]
    (by decide) (by decide)
    (Or.inr ⟨"abc", [], rfl, by decide⟩)

/-- C8: fulfilling a tracked responder's answer (a non-command direct
message from a sender with a tracker record) broadcasts the announcement
built from the answer to every channel in the responder's interest set,
exactly once per channel (the pop loop drains the list in reverse,
visiting each element once), and sends nothing to any other
destination. -/
theorem C8_thm (now : Nat) (connId : String) (msg : Message)
    (s : PluginState) (w : WaitingReply)
    (h₁ : strStartsWith msg.message "!standup" = false)
    (h₂ : msg.channel = "")
    (h₃ : lookupA s.users_awaiting_reply msg.sender = some w)
    (h₄ : w.pester_task ≠ some none)
    (h₅ : w.for_channels.Nodup) :
    (∀ c ∈ w.for_channels,
      ((recv_msg now connId msg s).sent.filter
        (fun p => p.2 = c)).length = 1) ∧
    ∀ p ∈ (recv_msg now connId msg s).sent,
      p.1 = announceText msg.sender msg.message ∧
      p.2 ∈ w.for_channels := by
  rw [recv_msg_answer_path now connId msg s h₁ h₂ (by rw [h₃]; rfl)]
  obtain ⟨-, hsent, -⟩ := fulfillAnswer_spec msg s w h₃ h₄
  rw [hsent]
  constructor
  · intro c hc
    rw [filter_pair_length, List.count_reverse]
    exact List.count_eq_one_of_mem h₅ hc
  · intro p hp
    obtain ⟨c, hcmem, rfl⟩ := List.mem_map.mp hp
    exact ⟨rfl, List.mem_reverse.mp hcmem⟩

/-- Witness for C8 at a concrete two-channel interest set. -/
theorem C8_witness :
    (∀ c ∈ (WaitingReply.mk ["C1", "C2"] (some (some 7)) none
        none).for_channels,
      ((recv_msg 0 "conn" (Message.mk "done" "" "u")
        (PluginState.mk []
          [("u", WaitingReply.mk ["C1", "C2"] (some (some 7)) none none)]
          [] [] 10 [])).sent.filter (fun p => p.2 = c)).length = 1) ∧
    ∀ p ∈ (recv_msg 0 "conn" (Message.mk "done" "" "u")
        (PluginState.mk []
          [("u", WaitingReply.mk ["C1", "C2"] (some (some 7)) none none)]
          [] [] 10 [])).sent,
      p.1 = announceText "u" "done" ∧
      p.2 ∈ (WaitingReply.mk ["C1", "C2"] (some (some 7)) none
        none).for_channels :=
  C8_thm 0 "conn" (Message.mk "done" "" "u")
    (PluginState.mk []
      [("u", WaitingReply.mk ["C1", "C2"] (some (some 7)) none none)]
      [] [] 10 [])
    (WaitingReply.mk ["C1", "C2"] (some (some 7)) none none)
    (by decide) (by decide) (by decide) (by decide) (by decide)

/-- C9: calling `standup_priv_msg` twice for the same (responder,
channel) pair leaves exactly one entry for that channel in the
responder's interested-channels list (the source appends only when the
channel is not already present). -/
theorem C9_thm (s : PluginState) (u c : String)
    (h : ∀ w, lookupA s.users_awaiting_reply u = some w →
      w.for_channels.count c ≤ 1) :
    ∃ w, lookupA (standup_priv_msg u c 600 0
        (standup_priv_msg u c 600 0 s).1).1.users_awaiting_reply u =
      some w ∧ w.for_channels.count c = 1 := by
  obtain ⟨w₁, hw₁, hcnt₁⟩ := standup_priv_msg_count u c 600 0 s h
  refine standup_priv_msg_count u c 600 0 _ (fun w hw => ?_)
  rw [hw₁] at hw
  injection hw with hw
  subst hw
  omega

/-- Witness for C9 starting from the empty tracker. -/
theorem C9_witness :
    ∃ w, lookupA (standup_priv_msg "u" "C" 600 0
        (standup_priv_msg "u" "C" 600 0
          (PluginState.mk [] [] [] [] 0 [])).1).1.users_awaiting_reply "u" =
      some w ∧ w.for_channels.count "C" = 1 :=
  C9_thm (PluginState.mk [] [] [] [] 0 []) "u" "C"
    (fun w hw => by simp [lookupA] at hw)

/-- C10: an inbound message is routed to the answer-fulfillment branch
exactly when it is a direct message (empty channel), does not start with
`!standup`, and its sender has a tracker record; any message carrying a
channel (or any `!standup` command, or any untracked sender) goes to
command dispatch, which never touches `users_awaiting_reply`. -/
theorem C10_thm (now now₂ : Nat) (connId connId₂ : String)
    (msg msg₂ : Message) (s s₂ : PluginState)
    (h : msg.channel ≠ "" ∨ strStartsWith msg.message "!standup" = true ∨
      lookupA s.users_awaiting_reply msg.sender = none)
    (g₁ : strStartsWith msg₂.message "!standup" = false)
    (g₂ : msg₂.channel = "")
    (g₃ : (lookupA s₂.users_awaiting_reply msg₂.sender).isSome = true) :
    (recv_msg now connId msg s).state.users_awaiting_reply =
      s.users_awaiting_reply ∧
    recv_msg now₂ connId₂ msg₂ s₂ = fulfillAnswer msg₂ s₂ := by
  constructor
  · rw [recv_msg_command_path now connId msg s h]
    exact users_handleCommand now connId msg s
  · exact recv_msg_answer_path now₂ connId₂ msg₂ s₂ g₁ g₂ g₃

/-- Witness for C10: a tracked sender posting in a channel (tracker is
untouched) versus the same sender answering by direct message (the
fulfillment branch runs). -/
theorem C10_witness :
    (recv_msg 0 "conn" (Message.mk "hello there" "C" "u")
        (PluginState.mk []
          [("u", WaitingReply.mk ["C"] (some (some 7)) none none)]
          [] [] 10 [])).state.users_awaiting_reply =
      [("u", WaitingReply.mk ["C"] (some (some 7)) none none)] ∧
    recv_msg 0 "conn" (Message.mk "hello there" "" "u")
        (PluginState.mk []
          [("u", WaitingReply.mk ["C"] (some (some 7)) none none)]
          [] [] 10 []) =
      fulfillAnswer (Message.mk "hello there" "" "u")
        (PluginState.mk []
          [("u", WaitingReply.mk ["C"] (some (some 7)) none none)]
          [] [] 10 []) :=
  C10_thm 0 0 "conn" "conn"
    (Message.mk "hello there" "C" "u") (Message.mk "hello there" "" "u")
    (PluginState.mk []
      [("u", WaitingReply.mk ["C"] (some (some 7)) none none)] [] [] 10 [])
    (PluginState.mk []
      [("u", WaitingReply.mk ["C"] (some (some 7)) none none)] [] [] 10 [])
    (Or.inl (by decide)) (by decide) (by decide) (by decide)

end Standup
